import Mathlib

/-!
Shallow embedding of the imgui-sdl2 renderer (src/src/lib.rs).

Modelling conventions:
* f32 values are modelled as exact rationals; the renderer's clip
  arithmetic uses only subtraction, multiplication, comparison and
  final truncation to integers, all of which the model mirrors.
* Rust float-to-integer casts truncate toward zero; a cast to u32
  additionally saturates negative values to 0 (truncI, truncU below).
* The SDL canvas is a record of the pieces of surface state the
  renderer reads or writes: clip rectangle, viewport, the per-axis
  render scale reported by canvas.scale(), the full-target viewport
  (what set_viewport(None) resets to) and the blend mode.
* A RawCallback draw command is an opaque mutation of the canvas
  state, modelled as an arbitrary function on CanvasState (the
  callback has no access to the renderer's texture map).
* SDL_RenderGeometryRaw calls are not executed; render returns the
  list of issued draw calls (texture bound, clip rectangle in force,
  vertex count, index offset, index count) alongside the final
  canvas state and texture map.
-/

/-- An SDL integer rectangle: position plus size in pixels. -/
structure Rect where
  x : Int
  y : Int
  w : Nat
  h : Nat
deriving DecidableEq, Repr

/-- Modelled from the sdl2 crate: Rect::new clamps a zero width or
height up to 1, so every constructed Rect has positive area.  (The
crate also caps very large sizes; no claim involves sizes near 2^31,
so that cap is not modelled.) -/
def Rect.new (x y : Int) (w h : Nat) : Rect :=
  { x := x, y := y, w := if w = 0 then 1 else w, h := if h = 0 then 1 else h }

/-- SDL blend modes used by the renderer. -/
inductive BlendMode where
  | None
  | Blend
deriving DecidableEq, Repr

/-- SDL texture scale modes used by the renderer. -/
inductive ScaleMode where
  | Nearest
  | Linear
deriving DecidableEq, Repr

/-- A backend-native SDL texture: an opaque raw pointer identity plus
the blend and scale mode state the renderer sets on it. -/
structure SdlTexture where
  raw : Nat
  blend_mode : BlendMode
  scale_mode : ScaleMode
deriving DecidableEq, Repr

/-- The Texture Registry (imgui::Textures): an ownership map from
integer texture ids to SDL textures, with a fresh-id counter. -/
structure Textures where
  entries : List (Nat × SdlTexture)
  next : Nat
deriving DecidableEq, Repr

/-- imgui::Textures::new(): empty registry, ids start at 0. -/
def Textures.new : Textures := ⟨[], 0⟩

/-- imgui::Textures::insert: registers the texture under a fresh id,
returning the updated registry and the assigned id. -/
def Textures.insert (t : Textures) (tex : SdlTexture) : Textures × Nat :=
  (⟨t.entries ++ [(t.next, tex)], t.next + 1⟩, t.next)

/-- imgui::Textures::get: read-only lookup of a texture id. -/
def Textures.get (t : Textures) (id : Nat) : Option SdlTexture :=
  (t.entries.find? (fun e => e.1 = id)).map (fun e => e.2)

/-- The SDL canvas state the renderer touches: clip rectangle
(clip_rect / set_clip_rect), viewport (viewport / set_viewport), the
scale reported by canvas.scale(), the full-target rectangle that
set_viewport(None) resets to, and the blend mode. -/
structure CanvasState where
  clip_rect : Option Rect
  viewport : Rect
  scale : ℚ × ℚ
  full_viewport : Rect
  blend_mode : BlendMode
deriving DecidableEq, Repr

/-- canvas.set_clip_rect: sets (or with none clears) the clip rectangle. -/
def CanvasState.set_clip_rect (c : CanvasState) (r : Option Rect) : CanvasState :=
  { c with clip_rect := r }

/-- canvas.set_viewport: some r sets the viewport to r; none resets it
to the full render target. -/
def CanvasState.set_viewport (c : CanvasState) : Option Rect → CanvasState
  | some r => { c with viewport := r }
  | none => { c with viewport := c.full_viewport }

/-- canvas.set_blend_mode. -/
def CanvasState.set_blend_mode (c : CanvasState) (b : BlendMode) : CanvasState :=
  { c with blend_mode := b }

/-- Renderer::setup_render_state (lib.rs lines 189-192): clear the
clip rectangle and reset the viewport. -/
def setup_render_state (c : CanvasState) : CanvasState :=
  (c.set_clip_rect none).set_viewport none

/-- Rust float-to-signed-integer cast: truncation toward zero. -/
def truncI (q : ℚ) : Int :=
  if q < 0 then -(Int.floor (-q)) else Int.floor q

/-- Rust float-to-u32 cast: truncation toward zero, saturating
negative values at 0. -/
def truncU (q : ℚ) : Nat :=
  (truncI q).toNat

/-- The clip rectangle of a geometry command, in UI coordinates:
the four components of imgui DrawCmdParams.clip_rect. -/
structure ClipRect4 where
  c0 : ℚ
  c1 : ℚ
  c2 : ℚ
  c3 : ℚ
deriving DecidableEq, Repr

/-- imgui DrawCmdParams: the per-command parameters the renderer
reads: clip rectangle, texture id, vertex offset and index offset. -/
structure DrawCmdParams where
  clip_rect : ClipRect4
  texture_id : Nat
  vtx_offset : Nat
  idx_offset : Nat
deriving DecidableEq, Repr

/-- imgui::DrawCmd: geometry elements, a render-state reset request,
or an opaque raw callback (modelled as an arbitrary mutation of the
canvas state). -/
inductive DrawCmd where
  | Elements (count : Nat) (cmd_params : DrawCmdParams)
  | ResetRenderState
  | RawCallback (callback : CanvasState → CanvasState)

/-- One imgui draw list: its vertex buffer length, index buffer
length, and command sequence.  Vertex contents are never copied by
the renderer, so only the buffer length (used for the draw call's
vertex count) is modelled. -/
structure DrawList where
  vtx_buffer_len : Nat
  idx_buffer_len : Nat
  commands : List DrawCmd

/-- imgui::DrawData: one frame's display geometry and draw lists. -/
structure DrawData where
  display_pos : ℚ × ℚ
  display_size : ℚ × ℚ
  framebuffer_scale : ℚ × ℚ
  draw_lists : List DrawList

/-- One issued SDL_RenderGeometryRaw call: the texture bound (none
models the null texture), the clip rectangle in force, the vertex
count passed, the index offset and the index count. -/
structure DrawCall where
  texture : Option Nat
  clip : Rect
  num_vertices : Nat
  idx_offset : Nat
  count : Nat
deriving DecidableEq, Repr

/-- The per-frame constants of the command loop: clip offset
(display_pos), clip scale (the effective render scale) and the
framebuffer dimensions. -/
structure RenderCtx where
  clip_off : ℚ × ℚ
  clip_scale : ℚ × ℚ
  fb_width : ℚ
  fb_height : ℚ
deriving DecidableEq, Repr

/-- The effective render scale (lib.rs lines 73-85): per axis, the
frame's framebuffer scale when the canvas reports scale exactly 1.0,
and 1.0 otherwise. -/
def effectiveScale (canvas : CanvasState) (draw_data : DrawData) : ℚ × ℚ :=
  (if canvas.scale.1 = 1 then draw_data.framebuffer_scale.1 else 1,
   if canvas.scale.2 = 1 then draw_data.framebuffer_scale.2 else 1)

/-- The clip-rectangle computation of a geometry command (lib.rs
lines 108-128): offset by display_pos, scale by the effective render
scale, then clamp the min corner at 0 and the max corner at the
framebuffer size.  Returns (clip_min, clip_max). -/
def computeClip (ctx : RenderCtx) (r : ClipRect4) : (ℚ × ℚ) × (ℚ × ℚ) :=
  let clip_min := ((r.c0 - ctx.clip_off.1) * ctx.clip_scale.1,
                   (r.c1 - ctx.clip_off.2) * ctx.clip_scale.2)
  let clip_max := ((r.c2 - ctx.clip_off.1) * ctx.clip_scale.1,
                   (r.c3 - ctx.clip_off.2) * ctx.clip_scale.2)
  let clip_min := (if clip_min.1 < 0 then 0 else clip_min.1,
                   if clip_min.2 < 0 then 0 else clip_min.2)
  let clip_max := (if clip_max.1 > ctx.fb_width then ctx.fb_width else clip_max.1,
                   if clip_max.2 > ctx.fb_height then ctx.fb_height else clip_max.2)
  (clip_min, clip_max)

/-- The integer clip rectangle passed to Rect::new (lib.rs lines
134-139): the min corner and the max-minus-min differences of the
computed clip, each cast with Rust truncation semantics. -/
def clipRectOf (ctx : RenderCtx) (r : ClipRect4) : Rect :=
  let c := computeClip ctx r
  Rect.new (truncI c.1.1) (truncI c.1.2)
    (truncU (c.2.1 - c.1.1)) (truncU (c.2.2 - c.1.2))

/-- One iteration of the command loop (lib.rs lines 105-180): an
Elements command computes and clamps its clip rectangle, skips
entirely when the result is empty or inverted, and otherwise sets
the clip rectangle and issues one draw call with the texture looked
up in the registry (null when absent); ResetRenderState reinitializes
the canvas state; RawCallback runs the opaque callback. -/
def processCmd (ctx : RenderCtx) (vtx_buffer_len : Nat) (cmd : DrawCmd)
    (tm : Textures) (canvas : CanvasState) :
    Textures × CanvasState × List DrawCall :=
  match cmd with
  | DrawCmd.Elements count cmd_params =>
    let c := computeClip ctx cmd_params.clip_rect
    if c.2.1 ≤ c.1.1 ∨ c.2.2 ≤ c.1.2 then
      (tm, canvas, [])
    else
      let rect := clipRectOf ctx cmd_params.clip_rect
      let canvas := canvas.set_clip_rect (some rect)
      let font_texture := tm.get cmd_params.texture_id
      (tm, canvas,
        [{ texture := font_texture.map SdlTexture.raw,
           clip := rect,
           num_vertices := vtx_buffer_len - cmd_params.vtx_offset,
           idx_offset := cmd_params.idx_offset,
           count := count }])
  | DrawCmd.ResetRenderState => (tm, setup_render_state canvas, [])
  | DrawCmd.RawCallback f => (tm, f canvas, [])

/-- The inner command loop over one draw list's command sequence. -/
def processCmds (ctx : RenderCtx) (vtx_buffer_len : Nat) :
    List DrawCmd → Textures → CanvasState → Textures × CanvasState × List DrawCall
  | [], tm, canvas => (tm, canvas, [])
  | cmd :: rest, tm, canvas =>
    let s := processCmd ctx vtx_buffer_len cmd tm canvas
    let s2 := processCmds ctx vtx_buffer_len rest s.1 s.2.1
    (s2.1, s2.2.1, s.2.2 ++ s2.2.2)

/-- The outer loop over the frame's draw lists (lib.rs line 101). -/
def processLists (ctx : RenderCtx) :
    List DrawList → Textures → CanvasState → Textures × CanvasState × List DrawCall
  | [], tm, canvas => (tm, canvas, [])
  | dl :: rest, tm, canvas =>
    let s := processCmds ctx dl.vtx_buffer_len dl.commands tm canvas
    let s2 := processLists ctx rest s.1 s.2.1
    (s2.1, s2.2.1, s.2.2 ++ s2.2.2)

/-- The outcome of a successful render call: the texture map held by
the renderer, the final canvas state, and the issued draw calls. -/
structure RenderOut where
  texture_map : Textures
  canvas : CanvasState
  calls : List DrawCall
deriving DecidableEq

/-- Renderer::render (lib.rs lines 68-187): compute the effective
render scale and framebuffer size, return Ok immediately on a
degenerate framebuffer, otherwise save the clip rectangle and
viewport, run the command loops, restore the saved state and
return Ok. -/
def render (tm : Textures) (canvas : CanvasState) (draw_data : DrawData) :
    Except String RenderOut :=
  let render_scale := effectiveScale canvas draw_data
  let fb_height := draw_data.display_size.2 * render_scale.2
  let fb_width := draw_data.display_size.1 * render_scale.1
  if ¬(fb_width > 0 ∧ fb_height > 0) then
    Except.ok ⟨tm, canvas, []⟩
  else
    let backup_clip := canvas.clip_rect
    let backup_viewport := canvas.viewport
    let ctx : RenderCtx := ⟨draw_data.display_pos, render_scale, fb_width, fb_height⟩
    let s := processLists ctx draw_data.draw_lists tm canvas
    Except.ok ⟨s.1, (s.2.1.set_clip_rect backup_clip).set_viewport (some backup_viewport), s.2.2⟩

/-- Renderer::new (lib.rs lines 27-66), with the two fallible SDL
operations (create_texture_static and the pixel upload, both already
mapped to their error strings) supplied as inputs: on any failure
the error propagates before any registry state exists; on success the
canvas and font texture get blend mode Blend, the font texture gets
linear scaling, and the texture is inserted into a fresh registry
whose assigned id becomes the atlas's texture id. -/
def Renderer.new (canvas : CanvasState)
    (create_texture_static : Except String SdlTexture)
    (update_result : Except String Unit) :
    Except String (Textures × CanvasState × Nat) :=
  match create_texture_static with
  | Except.error e => Except.error e
  | Except.ok font_texture =>
    match update_result with
    | Except.error e => Except.error e
    | Except.ok _ =>
      let canvas := canvas.set_blend_mode BlendMode.Blend
      let font_texture := { font_texture with blend_mode := BlendMode.Blend }
      let font_texture := { font_texture with scale_mode := ScaleMode.Linear }
      let texture_map := Textures.new
      let s := texture_map.insert font_texture
      Except.ok (s.1, canvas, s.2)

/-- Concrete canvas fixture: unit scale, a saved clip rectangle and a
640x480 target. -/
def exCanvas : CanvasState :=
  { clip_rect := some ⟨1, 2, 3, 4⟩
    viewport := ⟨0, 0, 640, 480⟩
    scale := (1, 1)
    full_viewport := ⟨0, 0, 640, 480⟩
    blend_mode := BlendMode.Blend }

/-- Concrete canvas fixture whose own scale is 1.0 on the x axis only. -/
def exScaleCanvas : CanvasState :=
  { exCanvas with scale := (1, 3) }

/-- Concrete font-atlas texture fixture. -/
def exTexture : SdlTexture := ⟨7, BlendMode.Blend, ScaleMode.Linear⟩

/-- Concrete registry fixture holding exTexture under id 0. -/
def exTextures : Textures := ⟨[(0, exTexture)], 1⟩

/-- Concrete frame constants: no display offset, render scale 2,
200x200 framebuffer. -/
def exCtx : RenderCtx := ⟨(0, 0), (2, 2), 200, 200⟩

/-- Concrete geometry-command parameters with a non-degenerate clip. -/
def exParams : DrawCmdParams := ⟨⟨10, 10, 50, 50⟩, 0, 0, 0⟩

/-- Concrete geometry-command parameters whose transformed clip is
degenerate (zero width). -/
def exDegenParams : DrawCmdParams := ⟨⟨10, 10, 10, 50⟩, 0, 0, 0⟩

/-- Concrete geometry-command parameters referencing texture id 5,
absent from every fixture registry. -/
def exMissParams : DrawCmdParams := ⟨⟨10, 10, 50, 50⟩, 5, 1, 2⟩

/-- Concrete geometry-command parameters with fractional clip
coordinates, exercising truncation. -/
def exFracParams : DrawCmdParams := ⟨⟨1/4, 1/4, 101/2, 101/2⟩, 0, 0, 0⟩

/-- Concrete frame with one geometry command. -/
def exFrame : DrawData :=
  { display_pos := (0, 0)
    display_size := (100, 100)
    framebuffer_scale := (2, 2)
    draw_lists := [⟨4, 6, [DrawCmd.Elements 6 exParams]⟩] }

/-- Concrete frame containing only a raw callback (which clobbers the
clip rectangle) and a reset command: zero geometry commands. -/
def exCallbackFrame : DrawData :=
  { display_pos := (0, 0)
    display_size := (100, 100)
    framebuffer_scale := (2, 2)
    draw_lists := [⟨0, 0, [DrawCmd.RawCallback (fun s => s.set_clip_rect none),
                           DrawCmd.ResetRenderState]⟩] }

/-- Concrete degenerate frame: display width 0. -/
def exDegenFrame : DrawData :=
  { display_pos := (0, 0)
    display_size := (0, 100)
    framebuffer_scale := (2, 2)
    draw_lists := [⟨4, 6, [DrawCmd.Elements 6 exParams]⟩] }

/-- The draw call render issues for exFrame. -/
def exCall : DrawCall := ⟨some 7, ⟨20, 20, 80, 80⟩, 4, 0, 6⟩

/-- A freshly created texture before blend/scale setup. -/
def exRawTexture : SdlTexture := ⟨7, BlendMode.None, ScaleMode.Nearest⟩

theorem ite_neg_eq_max (a : ℚ) : (if a < 0 then 0 else a) = max 0 a := by
  rcases le_or_lt 0 a with h | h
  · rw [if_neg (not_lt.mpr h), max_eq_right h]
  · rw [if_pos h, max_eq_left h.le]

theorem ite_cap_eq_min (b a : ℚ) : (if a > b then b else a) = min b a := by
  rcases le_or_lt a b with h | h
  · rw [if_neg (not_lt.mpr h), min_eq_right h]
  · rw [if_pos h, min_eq_left h.le]

theorem Rect.one_le_new_w (x y : Int) (w h : Nat) : 1 ≤ (Rect.new x y w h).w := by
  unfold Rect.new
  dsimp only
  split
  · exact le_refl 1
  · omega

theorem Rect.one_le_new_h (x y : Int) (w h : Nat) : 1 ≤ (Rect.new x y w h).h := by
  unfold Rect.new
  dsimp only
  split
  · exact le_refl 1
  · omega

theorem clipRectOf_one_le_w (ctx : RenderCtx) (r : ClipRect4) : 1 ≤ (clipRectOf ctx r).w :=
  Rect.one_le_new_w _ _ _ _

theorem clipRectOf_one_le_h (ctx : RenderCtx) (r : ClipRect4) : 1 ≤ (clipRectOf ctx r).h :=
  Rect.one_le_new_h _ _ _ _

theorem processCmd_texture_map (ctx : RenderCtx) (v : Nat) (cmd : DrawCmd)
    (tm : Textures) (c : CanvasState) : (processCmd ctx v cmd tm c).1 = tm := by
  cases cmd with
  | Elements count p =>
    simp only [processCmd]
    split
    · rfl
    · rfl
  | ResetRenderState => rfl
  | RawCallback f => rfl

theorem processCmds_texture_map (ctx : RenderCtx) (v : Nat) (l : List DrawCmd) :
    ∀ tm c, (processCmds ctx v l tm c).1 = tm := by
  induction l with
  | nil => intro tm c; rfl
  | cons cmd rest ih =>
    intro tm c
    calc (processCmds ctx v (cmd :: rest) tm c).1
        = (processCmds ctx v rest (processCmd ctx v cmd tm c).1
            (processCmd ctx v cmd tm c).2.1).1 := rfl
      _ = (processCmd ctx v cmd tm c).1 := ih _ _
      _ = tm := processCmd_texture_map ctx v cmd tm c

theorem processLists_texture_map (ctx : RenderCtx) (l : List DrawList) :
    ∀ tm c, (processLists ctx l tm c).1 = tm := by
  induction l with
  | nil => intro tm c; rfl
  | cons dl rest ih =>
    intro tm c
    calc (processLists ctx (dl :: rest) tm c).1
        = (processLists ctx rest (processCmds ctx dl.vtx_buffer_len dl.commands tm c).1
            (processCmds ctx dl.vtx_buffer_len dl.commands tm c).2.1).1 := rfl
      _ = (processCmds ctx dl.vtx_buffer_len dl.commands tm c).1 := ih _ _
      _ = tm := processCmds_texture_map ctx dl.vtx_buffer_len dl.commands tm c

theorem processCmd_clip_pos (ctx : RenderCtx) (v : Nat) (cmd : DrawCmd)
    (tm : Textures) (c : CanvasState) :
    ∀ call ∈ (processCmd ctx v cmd tm c).2.2, 1 ≤ call.clip.w ∧ 1 ≤ call.clip.h := by
  intro call hc
  cases cmd with
  | Elements count p =>
    simp only [processCmd] at hc
    split at hc
    · simp at hc
    · simp only [List.mem_singleton] at hc
      subst hc
      exact ⟨clipRectOf_one_le_w _ _, clipRectOf_one_le_h _ _⟩
  | ResetRenderState => simp [processCmd] at hc
  | RawCallback f => simp [processCmd] at hc

theorem processCmds_clip_pos (ctx : RenderCtx) (v : Nat) (l : List DrawCmd) :
    ∀ tm c call, call ∈ (processCmds ctx v l tm c).2.2 →
      1 ≤ call.clip.w ∧ 1 ≤ call.clip.h := by
  induction l with
  | nil => intro tm c call hc; simp [processCmds] at hc
  | cons cmd rest ih =>
    intro tm c call hc
    have hc2 : call ∈ (processCmd ctx v cmd tm c).2.2 ++
        (processCmds ctx v rest (processCmd ctx v cmd tm c).1
          (processCmd ctx v cmd tm c).2.1).2.2 := hc
    rcases List.mem_append.mp hc2 with h1 | h1
    · exact processCmd_clip_pos ctx v cmd tm c call h1
    · exact ih _ _ call h1

theorem processLists_clip_pos (ctx : RenderCtx) (l : List DrawList) :
    ∀ tm c call, call ∈ (processLists ctx l tm c).2.2 →
      1 ≤ call.clip.w ∧ 1 ≤ call.clip.h := by
  induction l with
  | nil => intro tm c call hc; simp [processLists] at hc
  | cons dl rest ih =>
    intro tm c call hc
    have hc2 : call ∈ (processCmds ctx dl.vtx_buffer_len dl.commands tm c).2.2 ++
        (processLists ctx rest (processCmds ctx dl.vtx_buffer_len dl.commands tm c).1
          (processCmds ctx dl.vtx_buffer_len dl.commands tm c).2.1).2.2 := hc
    rcases List.mem_append.mp hc2 with h1 | h1
    · exact processCmds_clip_pos ctx dl.vtx_buffer_len dl.commands tm c call h1
    · exact ih _ _ call h1

/-- Claim C1: for every input frame, after render returns the canvas
clip rectangle and viewport equal their values at the moment render
was called. -/
theorem claim_C1_restores_surface_state (tm : Textures) (canvas : CanvasState)
    (dd : DrawData) (out : RenderOut) (h : render tm canvas dd = Except.ok out) :
    out.canvas.clip_rect = canvas.clip_rect ∧ out.canvas.viewport = canvas.viewport := by
  simp only [render] at h
  split at h
  · rw [Except.ok.injEq] at h
    subst h
    exact ⟨rfl, rfl⟩
  · rw [Except.ok.injEq] at h
    subst h
    exact ⟨rfl, rfl⟩

/-- Witness for C1 at a frame containing only a raw callback (which
clobbers the clip rectangle) and a reset command. -/
theorem claim_C1_witness :
    render exTextures exCanvas exCallbackFrame = Except.ok ⟨exTextures, exCanvas, []⟩ ∧
    (RenderOut.mk exTextures exCanvas []).canvas.clip_rect = exCanvas.clip_rect ∧
    (RenderOut.mk exTextures exCanvas []).canvas.viewport = exCanvas.viewport := by
  have h : render exTextures exCanvas exCallbackFrame = Except.ok ⟨exTextures, exCanvas, []⟩ := by
    norm_num [render, effectiveScale, processLists, processCmds, processCmd,
      CanvasState.set_clip_rect, CanvasState.set_viewport, setup_render_state,
      exCanvas, exTextures, exCallbackFrame]
  exact ⟨h, claim_C1_restores_surface_state _ _ _ _ h⟩

/-- Claim C2: the clip rectangle of a geometry command is
(batch_clip - display_position) * effective_render_scale corner by
corner, with the min corner floored at 0 and the max corner capped at
the framebuffer size; on the claim's concrete inputs it yields
((20,20),(100,100)), and with a 60x60 framebuffer the max corner
clamps to (60,60). -/
theorem claim_C2_clip_transform :
    (∀ ctx r, computeClip ctx r =
      ((max 0 ((r.c0 - ctx.clip_off.1) * ctx.clip_scale.1),
        max 0 ((r.c1 - ctx.clip_off.2) * ctx.clip_scale.2)),
       (min ctx.fb_width ((r.c2 - ctx.clip_off.1) * ctx.clip_scale.1),
        min ctx.fb_height ((r.c3 - ctx.clip_off.2) * ctx.clip_scale.2)))) ∧
    computeClip ⟨(0, 0), (2, 2), 200, 200⟩ ⟨10, 10, 50, 50⟩ = ((20, 20), (100, 100)) ∧
    computeClip ⟨(0, 0), (2, 2), 60, 60⟩ ⟨10, 10, 50, 50⟩ = ((20, 20), (60, 60)) := by
  refine ⟨fun ctx r => ?_, ?_, ?_⟩
  · simp only [computeClip, ite_neg_eq_max, ite_cap_eq_min]
  · norm_num [computeClip]
  · norm_num [computeClip]

/-- Claim C3: a geometry command whose transformed and clamped clip
rectangle has max ≤ min on either axis is skipped with no draw call
and no canvas change; and every draw call render issues carries a
clip rectangle of positive width and height. -/
theorem claim_C3_empty_clip_skipped :
    (∀ ctx v count p tm canvas,
      ((computeClip ctx p.clip_rect).2.1 ≤ (computeClip ctx p.clip_rect).1.1 ∨
       (computeClip ctx p.clip_rect).2.2 ≤ (computeClip ctx p.clip_rect).1.2) →
      processCmd ctx v (DrawCmd.Elements count p) tm canvas = (tm, canvas, [])) ∧
    (∀ tm canvas dd out, render tm canvas dd = Except.ok out →
      ∀ call ∈ out.calls, 1 ≤ call.clip.w ∧ 1 ≤ call.clip.h) := by
  constructor
  · intro ctx v count p tm canvas hdeg
    simp only [processCmd]
    rw [if_pos hdeg]
  · intro tm canvas dd out h call hcall
    simp only [render] at h
    split at h
    · rw [Except.ok.injEq] at h
      subst h
      simp at hcall
    · rw [Except.ok.injEq] at h
      subst h
      exact processLists_clip_pos _ _ _ _ call hcall

/-- Witness for C3: a concrete degenerate command is skipped, and the
concrete draw call issued for exFrame has positive clip size. -/
theorem claim_C3_witness :
    processCmd exCtx 4 (DrawCmd.Elements 6 exDegenParams) exTextures exCanvas =
      (exTextures, exCanvas, []) ∧
    (1 ≤ exCall.clip.w ∧ 1 ≤ exCall.clip.h) := by
  have h : render exTextures exCanvas exFrame = Except.ok ⟨exTextures, exCanvas, [exCall]⟩ := by
    norm_num [render, effectiveScale, processLists, processCmds, processCmd, computeClip,
      clipRectOf, truncI, truncU, CanvasState.set_clip_rect, CanvasState.set_viewport,
      exCanvas, exTextures, exFrame, exParams, exCtx, exCall, Rect.new, Textures.get,
      exTexture]
    decide
  refine ⟨claim_C3_empty_clip_skipped.1 exCtx 4 6 exDegenParams exTextures exCanvas ?_,
    claim_C3_empty_clip_skipped.2 exTextures exCanvas exFrame ⟨exTextures, exCanvas, [exCall]⟩
      h exCall (List.mem_singleton.mpr rfl)⟩
  norm_num [computeClip, exCtx, exDegenParams]

/-- Claim C4: a frame whose computed framebuffer width or height is
at most 0 makes render return success with no draw calls and an
unchanged canvas. -/
theorem claim_C4_degenerate_frame (tm : Textures) (canvas : CanvasState) (dd : DrawData)
    (h : dd.display_size.1 * (effectiveScale canvas dd).1 ≤ 0 ∨
         dd.display_size.2 * (effectiveScale canvas dd).2 ≤ 0) :
    render tm canvas dd = Except.ok ⟨tm, canvas, []⟩ := by
  have hc : ¬(dd.display_size.1 * (effectiveScale canvas dd).1 > 0 ∧
              dd.display_size.2 * (effectiveScale canvas dd).2 > 0) := by
    rcases h with h | h
    · exact fun hcontra => absurd hcontra.1 (not_lt.mpr h)
    · exact fun hcontra => absurd hcontra.2 (not_lt.mpr h)
  simp only [render]
  rw [if_pos hc]

/-- Witness for C4 at a frame with display width 0. -/
theorem claim_C4_witness :
    (exDegenFrame.display_size.1 * (effectiveScale exCanvas exDegenFrame).1 ≤ 0 ∨
     exDegenFrame.display_size.2 * (effectiveScale exCanvas exDegenFrame).2 ≤ 0) ∧
    render exTextures exCanvas exDegenFrame = Except.ok ⟨exTextures, exCanvas, []⟩ := by
  have h : exDegenFrame.display_size.1 * (effectiveScale exCanvas exDegenFrame).1 ≤ 0 ∨
      exDegenFrame.display_size.2 * (effectiveScale exCanvas exDegenFrame).2 ≤ 0 := by
    norm_num [exDegenFrame, effectiveScale, exCanvas]
  exact ⟨h, claim_C4_degenerate_frame exTextures exCanvas exDegenFrame h⟩

/-- Claim C5: per axis, the effective render scale equals the frame's
framebuffer scale factor when the canvas's own scale factor is
exactly 1.0, and equals 1.0 otherwise. -/
theorem claim_C5_effective_scale (canvas : CanvasState) (dd : DrawData) :
    ((canvas.scale.1 = 1 → (effectiveScale canvas dd).1 = dd.framebuffer_scale.1) ∧
     (canvas.scale.1 ≠ 1 → (effectiveScale canvas dd).1 = 1)) ∧
    ((canvas.scale.2 = 1 → (effectiveScale canvas dd).2 = dd.framebuffer_scale.2) ∧
     (canvas.scale.2 ≠ 1 → (effectiveScale canvas dd).2 = 1)) := by
  refine ⟨⟨fun h => ?_, fun h => ?_⟩, ⟨fun h => ?_, fun h => ?_⟩⟩ <;>
    simp [effectiveScale, h]

/-- Witness for C5 at a canvas whose scale is 1 on x and 3 on y. -/
theorem claim_C5_witness :
    (effectiveScale exScaleCanvas exFrame).1 = exFrame.framebuffer_scale.1 ∧
    (effectiveScale exScaleCanvas exFrame).2 = 1 := by
  refine ⟨(claim_C5_effective_scale exScaleCanvas exFrame).1.1 ?_,
          (claim_C5_effective_scale exScaleCanvas exFrame).2.2 ?_⟩
  · norm_num [exScaleCanvas, exCanvas]
  · norm_num [exScaleCanvas, exCanvas]

/-- Claim C6: a geometry command whose texture id misses the registry
and whose clip rectangle is non-empty still issues its draw call,
with no texture bound. -/
theorem claim_C6_missing_texture_draws_untextured (ctx : RenderCtx) (v : Nat)
    (count : Nat) (p : DrawCmdParams) (tm : Textures) (canvas : CanvasState)
    (hmiss : tm.get p.texture_id = none)
    (hclip : ¬((computeClip ctx p.clip_rect).2.1 ≤ (computeClip ctx p.clip_rect).1.1 ∨
               (computeClip ctx p.clip_rect).2.2 ≤ (computeClip ctx p.clip_rect).1.2)) :
    processCmd ctx v (DrawCmd.Elements count p) tm canvas =
      (tm, canvas.set_clip_rect (some (clipRectOf ctx p.clip_rect)),
       [{ texture := none
          clip := clipRectOf ctx p.clip_rect
          num_vertices := v - p.vtx_offset
          idx_offset := p.idx_offset
          count := count }]) := by
  simp only [processCmd]
  rw [if_neg hclip, hmiss]
  rfl

/-- Witness for C6: texture id 5 misses the empty registry and the
command still produces one untextured draw call. -/
theorem claim_C6_witness :
    Textures.new.get exMissParams.texture_id = none ∧
    processCmd exCtx 4 (DrawCmd.Elements 3 exMissParams) Textures.new exCanvas =
      (Textures.new, exCanvas.set_clip_rect (some (clipRectOf exCtx exMissParams.clip_rect)),
       [{ texture := none
          clip := clipRectOf exCtx exMissParams.clip_rect
          num_vertices := 4 - exMissParams.vtx_offset
          idx_offset := exMissParams.idx_offset
          count := 3 }]) := by
  have hm : Textures.new.get exMissParams.texture_id = none := rfl
  have hc : ¬((computeClip exCtx exMissParams.clip_rect).2.1 ≤
        (computeClip exCtx exMissParams.clip_rect).1.1 ∨
      (computeClip exCtx exMissParams.clip_rect).2.2 ≤
        (computeClip exCtx exMissParams.clip_rect).1.2) := by
    norm_num [computeClip, exCtx, exMissParams]
  exact ⟨hm, claim_C6_missing_texture_draws_untextured exCtx 4 3 exMissParams
    Textures.new exCanvas hm hc⟩

/-- Claim C7: a failing texture creation or pixel upload makes
initialization return that error, and a successful initialization
registers exactly the font texture, inserted only after both
fallible steps succeeded. -/
theorem claim_C7_init_no_partial_state (canvas : CanvasState)
    (cr : Except String SdlTexture) (ur : Except String Unit) :
    (∀ e, cr = Except.error e → Renderer.new canvas cr ur = Except.error e) ∧
    (∀ t e, cr = Except.ok t → ur = Except.error e →
      Renderer.new canvas cr ur = Except.error e) ∧
    (∀ out, Renderer.new canvas cr ur = Except.ok out →
      ∃ t, cr = Except.ok t ∧ ur = Except.ok () ∧
        out.1.entries =
          [(0, { t with blend_mode := BlendMode.Blend, scale_mode := ScaleMode.Linear })] ∧
        out.2.2 = 0) := by
  refine ⟨?_, ?_, ?_⟩
  · intro e he
    subst he
    rfl
  · intro t e ht he
    subst ht
    subst he
    rfl
  · intro out hout
    cases cr with
    | error e => simp [Renderer.new] at hout
    | ok t =>
      cases ur with
      | error e => simp [Renderer.new] at hout
      | ok u =>
        simp only [Renderer.new] at hout
        rw [Except.ok.injEq] at hout
        subst hout
        exact ⟨t, rfl, rfl, rfl, rfl⟩

/-- Witness for C7: both failure paths surface their error, and the
success path registers exactly one texture under id 0. -/
theorem claim_C7_witness :
    Renderer.new exCanvas (Except.error "texture creation failed") (Except.ok ()) =
      Except.error "texture creation failed" ∧
    Renderer.new exCanvas (Except.ok exRawTexture) (Except.error "upload failed") =
      Except.error "upload failed" ∧
    (∃ t, (Except.ok exRawTexture : Except String SdlTexture) = Except.ok t ∧
      (Except.ok () : Except String Unit) = Except.ok () ∧
      ((⟨[(0, ⟨7, BlendMode.Blend, ScaleMode.Linear⟩)], 1⟩, exCanvas, 0) :
        Textures × CanvasState × Nat).1.entries =
        [(0, { t with blend_mode := BlendMode.Blend, scale_mode := ScaleMode.Linear })] ∧
      ((⟨[(0, ⟨7, BlendMode.Blend, ScaleMode.Linear⟩)], 1⟩, exCanvas, 0) :
        Textures × CanvasState × Nat).2.2 = 0) := by
  have h3 : Renderer.new exCanvas (Except.ok exRawTexture) (Except.ok ()) =
      Except.ok (⟨[(0, ⟨7, BlendMode.Blend, ScaleMode.Linear⟩)], 1⟩, exCanvas, 0) := by
    norm_num [Renderer.new, Textures.new, Textures.insert, CanvasState.set_blend_mode,
      exCanvas, exRawTexture]
  exact ⟨(claim_C7_init_no_partial_state exCanvas _ _).1 _ rfl,
         (claim_C7_init_no_partial_state exCanvas _ _).2.1 exRawTexture _ rfl rfl,
         (claim_C7_init_no_partial_state exCanvas _ _).2.2 _ h3⟩

/-- Claim C8: for a drawn geometry command the integer clip rectangle
is built from truncI of the min corner and truncU of the max-minus-min
differences, and on nonnegative values that conversion is truncation:
the integer is at most the rational and within one below it. -/
theorem claim_C8_truncating_conversion :
    (∀ ctx v count p tm canvas,
      ¬((computeClip ctx p.clip_rect).2.1 ≤ (computeClip ctx p.clip_rect).1.1 ∨
        (computeClip ctx p.clip_rect).2.2 ≤ (computeClip ctx p.clip_rect).1.2) →
      processCmd ctx v (DrawCmd.Elements count p) tm canvas =
        (tm,
         canvas.set_clip_rect (some (Rect.new
           (truncI (computeClip ctx p.clip_rect).1.1)
           (truncI (computeClip ctx p.clip_rect).1.2)
           (truncU ((computeClip ctx p.clip_rect).2.1 - (computeClip ctx p.clip_rect).1.1))
           (truncU ((computeClip ctx p.clip_rect).2.2 - (computeClip ctx p.clip_rect).1.2)))),
         [{ texture := (tm.get p.texture_id).map SdlTexture.raw
            clip := Rect.new
              (truncI (computeClip ctx p.clip_rect).1.1)
              (truncI (computeClip ctx p.clip_rect).1.2)
              (truncU ((computeClip ctx p.clip_rect).2.1 - (computeClip ctx p.clip_rect).1.1))
              (truncU ((computeClip ctx p.clip_rect).2.2 - (computeClip ctx p.clip_rect).1.2))
            num_vertices := v - p.vtx_offset
            idx_offset := p.idx_offset
            count := count }])) ∧
    (∀ q : ℚ, 0 ≤ q → ((truncI q : ℚ) ≤ q ∧ q < truncI q + 1)) := by
  constructor
  · intro ctx v count p tm canvas hclip
    simp only [processCmd, clipRectOf]
    rw [if_neg hclip]
  · intro q hq
    have h0 : ¬(q < 0) := not_lt.mpr hq
    simp only [truncI]
    rw [if_neg h0]
    exact ⟨Int.floor_le q, Int.lt_floor_add_one q⟩

/-- Witness for C8 at fractional clip coordinates (min corner 0.5,
max corner 101 with difference 100.5, truncating to 0 and 100). -/
theorem claim_C8_witness :
    processCmd exCtx 4 (DrawCmd.Elements 6 exFracParams) exTextures exCanvas =
      (exTextures,
       exCanvas.set_clip_rect (some (Rect.new
         (truncI (computeClip exCtx exFracParams.clip_rect).1.1)
         (truncI (computeClip exCtx exFracParams.clip_rect).1.2)
         (truncU ((computeClip exCtx exFracParams.clip_rect).2.1 -
           (computeClip exCtx exFracParams.clip_rect).1.1))
         (truncU ((computeClip exCtx exFracParams.clip_rect).2.2 -
           (computeClip exCtx exFracParams.clip_rect).1.2)))),
       [{ texture := (exTextures.get exFracParams.texture_id).map SdlTexture.raw
          clip := Rect.new
            (truncI (computeClip exCtx exFracParams.clip_rect).1.1)
            (truncI (computeClip exCtx exFracParams.clip_rect).1.2)
            (truncU ((computeClip exCtx exFracParams.clip_rect).2.1 -
              (computeClip exCtx exFracParams.clip_rect).1.1))
            (truncU ((computeClip exCtx exFracParams.clip_rect).2.2 -
              (computeClip exCtx exFracParams.clip_rect).1.2))
          num_vertices := 4 - exFracParams.vtx_offset
          idx_offset := exFracParams.idx_offset
          count := 6 }]) ∧
    ((truncI (1/2) : ℚ) ≤ 1/2 ∧ (1 : ℚ)/2 < truncI (1/2) + 1) := by
  have hc : ¬((computeClip exCtx exFracParams.clip_rect).2.1 ≤
        (computeClip exCtx exFracParams.clip_rect).1.1 ∨
      (computeClip exCtx exFracParams.clip_rect).2.2 ≤
        (computeClip exCtx exFracParams.clip_rect).1.2) := by
    norm_num [computeClip, exCtx, exFracParams]
  exact ⟨claim_C8_truncating_conversion.1 exCtx 4 6 exFracParams exTextures exCanvas hc,
         claim_C8_truncating_conversion.2 (1/2) (by norm_num)⟩

/-- Claim C9: render returns success on every input: no canvas state
and no draw-batch list reaches the error variant. -/
theorem claim_C9_render_always_ok (tm : Textures) (canvas : CanvasState) (dd : DrawData) :
    ∃ out, render tm canvas dd = Except.ok out := by
  simp only [render]
  by_cases hc : ¬(dd.display_size.1 * (effectiveScale canvas dd).1 > 0 ∧
                  dd.display_size.2 * (effectiveScale canvas dd).2 > 0)
  · rw [if_pos hc]
    exact ⟨_, rfl⟩
  · rw [if_neg hc]
    exact ⟨_, rfl⟩

/-- Claim C10: render leaves the texture registry exactly as it was:
the returned registry equals the input registry. -/
theorem claim_C10_registry_unchanged (tm : Textures) (canvas : CanvasState) (dd : DrawData)
    (out : RenderOut) (h : render tm canvas dd = Except.ok out) :
    out.texture_map = tm := by
  simp only [render] at h
  split at h
  · rw [Except.ok.injEq] at h
    subst h
    rfl
  · rw [Except.ok.injEq] at h
    subst h
    exact processLists_texture_map _ _ _ _

/-- Witness for C10 at a frame that issues one textured draw call. -/
theorem claim_C10_witness :
    render exTextures exCanvas exFrame = Except.ok ⟨exTextures, exCanvas, [exCall]⟩ ∧
    (RenderOut.mk exTextures exCanvas [exCall]).texture_map = exTextures := by
  have h : render exTextures exCanvas exFrame = Except.ok ⟨exTextures, exCanvas, [exCall]⟩ := by
    norm_num [render, effectiveScale, processLists, processCmds, processCmd, computeClip,
      clipRectOf, truncI, truncU, CanvasState.set_clip_rect, CanvasState.set_viewport,
      exCanvas, exTextures, exFrame, exParams, exCtx, exCall, Rect.new, Textures.get,
      exTexture]
    decide
  exact ⟨h, claim_C10_registry_unchanged _ _ _ _ h⟩
